import Mathlib

/-!
Shallow embedding, in Lean 4, of the peer-networking core of the `ray`
beacon-node client (Rust), together with theorems checking the repository's
natural-language specification against the code.

Modelling conventions, used throughout:

* Machine integers (`u64`, `usize`, `Slot`, `Epoch`) are modelled as `Nat`;
  none of the verified code paths can overflow their 64-bit ranges on the
  inputs considered, and no Rust arithmetic here wraps.
* `Hash256` values are modelled as `Nat`; the derived Rust `Ord` on `Hash256`
  compares the 32 raw bytes lexicographically, which coincides with numeric
  comparison of the big-endian integer they encode, so `<`/`>` on `Nat` is a
  faithful image of `<`/`>` on `Hash256`.
* `PeerId` values are opaque identifiers, modelled as `Nat`.
* Rust `HashMap`s are modelled as association lists with first-match lookup;
  `insert` prepends after erasing the old binding, which has exactly the
  replace-or-add semantics of `HashMap::insert`.
* Stateful methods become pure functions from the receiver struct (plus
  arguments) to the updated struct, paired with any emitted events.
-/

/-- The STATUS handshake payload
(`lighthouse_network::rpc::StatusMessage`): fork digest, finalized
checkpoint, and chain head of the sender. -/
structure StatusMessage where
  fork_digest : List Nat
  finalized_root : Nat
  finalized_epoch : Nat
  head_root : Nat
  head_slot : Nat
deriving DecidableEq, Repr

/-- The state of `BeaconChain` (src/beacon_chain.rs) that the relevance
check reads: `create_status_message()` is a pure read of the canonical
head and fork context, modelled by the field `local_status`, and
`slot()` reads the wall-clock slot from `slot_clock.now()`, modelled by
the field `current_slot`.  In this client the canonical head is always
the genesis snapshot, so `local_status.head_slot` and `current_slot`
are unrelated values. -/
structure BeaconChain where
  local_status : StatusMessage
  current_slot : Nat
deriving DecidableEq, Repr

/-- Embedding of `BeaconChain::is_relevant` (src/beacon_chain.rs:79-103):
reject on fork-digest mismatch, then reject when the remote head slot is
ahead of our current wall-clock slot (`self.slot()`), otherwise accept. -/
def BeaconChain.is_relevant (chain : BeaconChain) (remote_status : StatusMessage) : Bool :=
  if chain.local_status.fork_digest ≠ remote_status.fork_digest then
    false
  else if remote_status.head_slot > chain.current_slot then
    false
  else
    true

/-- Embedding of `Network::check_peer_relevance` (src/network.rs:309-338),
the newer snapshot of the same decision: identical logic, reading the
local status via `status_message(&self.lh_beacon_chain)` and the clock
via `self.lh_beacon_chain.slot()`. -/
def check_peer_relevance (chain : BeaconChain) (remote_status : StatusMessage) : Bool :=
  if chain.local_status.fork_digest ≠ remote_status.fork_digest then
    false
  else if remote_status.head_slot > chain.current_slot then
    false
  else
    true

/-!
Sync-manager classification (src/sync/mod.rs).
-/

/-- Peer sync information carried by a STATUS message
(`crate::sync::SyncInfo`, src/sync/mod.rs:26-39). -/
structure SyncInfo where
  finalized_root : Nat
  finalized_epoch : Nat
  head_root : Nat
  head_slot : Nat
deriving DecidableEq, Repr

/-- Conversion `From<StatusMessage> for SyncInfo` (src/sync/mod.rs:62-71). -/
def StatusMessage.toSyncInfo (status : StatusMessage) : SyncInfo :=
  { finalized_root := status.finalized_root
    finalized_epoch := status.finalized_epoch
    head_root := status.head_root
    head_slot := status.head_slot }

/-- The type of a peer relative to our current state
(`crate::sync::SyncRelevance`, src/sync/mod.rs:43-50). -/
inductive SyncRelevance where
  | FullySynced
  | Advanced
  | Behind
deriving DecidableEq, Repr

/-- Peer sync status stored in the PeerDB
(`crate::peer_db::SyncStatus`, src/peer_db.rs:17-28). -/
inductive SyncStatus where
  | Synced
  | Advanced
  | Behind
  | IrrelevantPeer
  | Unknown
deriving DecidableEq, Repr

/-- Conversion `From<SyncRelevance> for SyncStatus` (src/sync/mod.rs:52-60). -/
def SyncRelevance.toSyncStatus : SyncRelevance → SyncStatus
  | .FullySynced => .Synced
  | .Advanced => .Advanced
  | .Behind => .Behind

/-- Embedding of `SyncManager::determine_sync_relevance`
(src/sync/mod.rs:113-128): three-way comparison of the remote finalized
epoch against the local finalized epoch. -/
def determine_sync_relevance (local_sync_info remote_sync_info : SyncInfo) : SyncRelevance :=
  match compare remote_sync_info.finalized_epoch local_sync_info.finalized_epoch with
  | .lt => .Behind
  | .eq => .FullySynced
  | .gt => .Advanced

/-!
Range-sync type selection (src/sync/range_sync.rs).
-/

/-- The type of range sync to perform
(`crate::sync::range_sync::RangeSyncType`, src/sync/range_sync.rs:60-65). -/
inductive RangeSyncType where
  | Finalized
  | Head
deriving DecidableEq, Repr

/-- Embedding of `RangeSyncType::new` (src/sync/range_sync.rs:69-84).
Note the source compares the two finalized roots with `>` (the derived
lexicographic-byte order on `Hash256`, i.e. numeric big-endian order),
not with `!=`. -/
def RangeSyncType.new (local_sync_info remote_sync_info : SyncInfo)
    (is_block_known : Bool) : RangeSyncType :=
  if remote_sync_info.finalized_root > local_sync_info.finalized_root ∧ ¬is_block_known then
    .Finalized
  else
    .Head

/-- First-match lookup in an association list; the model of `HashMap::get`
(and of the read performed by `get_mut` / `entry`). -/
def lookupKey {β : Type} : List (Nat × β) → Nat → Option β
  | [], _ => none
  | kv :: rest, k => if kv.1 = k then some kv.2 else lookupKey rest k

/-!
PeerDB (src/peer_db.rs).  The Rust struct holds a `HashMap<PeerId, PeerInfo>`;
it is modelled as an association list with first-match lookup, and
`HashMap::insert` is modelled as erase-then-prepend.

The `ConnectionStatus` enum in src/peer_db.rs lists `Connected` and
`Disconnecting`; the peer-manager swarm handler
(src/peer_manager/behaviour.rs:92-97) additionally stores
`Disconnected { since }` on connection close, so the model carries the
union of the two snapshots' variants.
-/

/-- Connection status of a peer (`crate::peer_db::ConnectionStatus` plus the
`Disconnected { since }` variant used by src/peer_manager/behaviour.rs). -/
inductive ConnectionStatus where
  | Connected
  | Disconnecting
  | Disconnected (since : Nat)
deriving DecidableEq, Repr

/-- Record stored per peer (`crate::peer_db::PeerInfo`, src/peer_db.rs:9-14). -/
structure PeerInfo where
  listening_address : Nat
  sync_status : SyncStatus
  connection_status : ConnectionStatus
deriving DecidableEq, Repr

/-- Embedding of `PeerInfo::new` (src/peer_db.rs:38-46): fresh records start
`Unknown` / `Connected`. -/
def PeerInfo.new (listening_address : Nat) : PeerInfo :=
  { listening_address
    sync_status := .Unknown
    connection_status := .Connected }

/-- The peer store (`crate::peer_db::PeerDB`, src/peer_db.rs:5-7). -/
structure PeerDB where
  peers : List (Nat × PeerInfo)
deriving DecidableEq, Repr

/-- Embedding of `PeerDB::new` (src/peer_db.rs:49-53). -/
def PeerDB.new : PeerDB := { peers := [] }

/-- Lookup of a peer record (`self.peers.get(..)` / `get_mut(..)`). -/
def PeerDB.find? (db : PeerDB) (peer_id : Nat) : Option PeerInfo :=
  lookupKey db.peers peer_id

/-- Embedding of `PeerDB::add_peer` (src/peer_db.rs:55-57):
`HashMap::insert`, which replaces any existing record for the peer. -/
def PeerDB.add_peer (db : PeerDB) (peer_id : Nat) (address : Nat) : PeerDB :=
  { peers := (peer_id, PeerInfo.new address) :: db.peers.filter (fun kv => kv.1 ≠ peer_id) }

/-- Embedding of `PeerDB::update_sync_status` (src/peer_db.rs:59-72): when
the peer is unknown only an error is logged and nothing changes; otherwise
the record's `sync_status` field is overwritten in place. -/
def PeerDB.update_sync_status (db : PeerDB) (peer_id : Nat) (sync_status : SyncStatus) : PeerDB :=
  match lookupKey db.peers peer_id with
  | none => db
  | some _ =>
    { peers := db.peers.map (fun kv =>
        if kv.1 = peer_id then (kv.1, { kv.2 with sync_status }) else kv) }

/-- Embedding of `PeerDB::update_connection_status` (src/peer_db.rs:74-92):
same shape as `update_sync_status`, for the `connection_status` field. -/
def PeerDB.update_connection_status (db : PeerDB) (peer_id : Nat)
    (connection_status : ConnectionStatus) : PeerDB :=
  match lookupKey db.peers peer_id with
  | none => db
  | some _ =>
    { peers := db.peers.map (fun kv =>
        if kv.1 = peer_id then (kv.1, { kv.2 with connection_status }) else kv) }

/-!
Sync manager (src/sync/mod.rs) and peer manager (src/peer_manager/mod.rs).
-/

/-- Embedding of `SyncManager::add_peer` (src/sync/mod.rs:98-111).  The
local sync info is obtained from the chain view (`status_message(..)`),
here passed as an argument.  The returned boolean records whether the
trailing `self.range_sync.add_peer(..)` call was made, i.e. whether the
peer was handed to `RangeSync` (whose own behaviour is embedded
separately below). -/
def SyncManager.add_peer (peer_db : PeerDB) (peer_id : Nat)
    (local_sync_info remote_sync_info : SyncInfo) : PeerDB × Bool :=
  let sync_relevance := determine_sync_relevance local_sync_info remote_sync_info
  let peer_db := peer_db.update_sync_status peer_id sync_relevance.toSyncStatus
  (peer_db, sync_relevance = .Advanced)

/-- Goodbye reason (`lighthouse_network::rpc::GoodbyeReason`), restricted to
the variants this repository mentions. -/
inductive GoodbyeReason where
  | ClientShutdown
  | IrrelevantNetwork
  | Fault
deriving DecidableEq, Repr

/-- Events the peer manager emits to the composer
(`crate::peer_manager::PeerManagerEvent`, src/peer_manager/mod.rs:24-35). -/
inductive PeerManagerEvent where
  | PeerConnectedIncoming (peer_id : Nat)
  | PeerConnectedOutgoing (peer_id : Nat)
  | NeedMorePeers
  | SendStatus (peer_id : Nat)
  | DisconnectPeer (peer_id : Nat) (reason : GoodbyeReason)
deriving DecidableEq, Repr

/-- The peer manager (`crate::peer_manager::PeerManager`,
src/peer_manager/mod.rs:41-52).  The `status_peers` delay-set is modelled
as the set of peer ids currently holding a re-status timer, and the
heartbeat interval as out-of-model time. -/
structure PeerManager where
  peer_db : PeerDB
  events : List PeerManagerEvent
  target_peers_count : Nat
  status_peers : List Nat
  peers_to_dial : List Nat
deriving DecidableEq, Repr

/-- Embedding of `PeerManager::statusd_peer` (src/peer_manager/mod.rs:83-85):
re-arm the re-status timer for the peer. -/
def PeerManager.statusd_peer (pm : PeerManager) (peer_id : Nat) : PeerManager :=
  { pm with status_peers := peer_id :: pm.status_peers.filter (fun p => p ≠ peer_id) }

/-- Embedding of `PeerManager::goodbye` (src/peer_manager/mod.rs:87-107):
for reason `IrrelevantNetwork` mark the peer `IrrelevantPeer` in the
PeerDB; always mark it `Disconnecting`; queue a `DisconnectPeer` event. -/
def PeerManager.goodbye (pm : PeerManager) (peer_id : Nat) (reason : GoodbyeReason) : PeerManager :=
  let peer_db :=
    if reason = .IrrelevantNetwork then
      pm.peer_db.update_sync_status peer_id .IrrelevantPeer
    else
      pm.peer_db
  let peer_db := peer_db.update_connection_status peer_id .Disconnecting
  { pm with
    peer_db
    events := pm.events ++ [.DisconnectPeer peer_id reason] }

/-- The parts of the network service (`crate::network::Network`,
src/network.rs) that STATUS validation touches: the chain view, the peer
manager behaviour, and the channel of `SyncOperation::AddPeer` messages
sent to the sync manager (recorded here as the list of messages sent). -/
structure Network where
  beacon_chain : BeaconChain
  peer_manager : PeerManager
  sync_sent : List (Nat × SyncInfo)
deriving DecidableEq, Repr

/-- Embedding of `Network::validate_status_message` (src/network.rs:281-305):
a relevant peer is reported to the sync manager via
`SyncOperation::AddPeer`; an irrelevant peer gets
`PeerManager::goodbye(.., IrrelevantNetwork)` and is never reported. -/
def Network.validate_status_message (n : Network) (peer_id : Nat)
    (message : StatusMessage) : Network × Bool :=
  if check_peer_relevance n.beacon_chain message then
    ({ n with sync_sent := n.sync_sent ++ [(peer_id, message.toSyncInfo)] }, true)
  else
    ({ n with peer_manager := n.peer_manager.goodbye peer_id .IrrelevantNetwork }, false)

/-!
Syncing chain and chain collection
(src/sync/syncing_chain.rs, src/sync/chain_collection.rs).

`crate::sync::syncing_chain::id` feeds `(target_root, target_slot)` through
`std::collections::hash_map::DefaultHasher`, a fixed, seed-free (hence
deterministic) but unspecified hash.  The embedding is therefore parametric
in the hash function `hashFn`; every theorem below holds for an arbitrary
choice of it.
-/

/-- Embedding of `EPOCHS_PER_BATCH` (src/sync/syncing_chain.rs:16). -/
def EPOCHS_PER_BATCH : Nat := 2

/-- `MainnetEthSpec::slots_per_epoch()`. -/
def slots_per_epoch : Nat := 32

/-- Embedding of `Epoch::start_slot(slots_per_epoch)`. -/
def epoch_start_slot (epoch : Nat) : Nat := epoch * slots_per_epoch

/-- Embedding of `crate::sync::syncing_chain::id`
(src/sync/syncing_chain.rs:18-22), parametric in the hasher. -/
def chain_id (hashFn : Nat → Nat → Nat) (target_root target_slot : Nat) : Nat :=
  hashFn target_root target_slot

/-- A segment of a chain (`crate::sync::syncing_chain::BatchInfo`,
src/sync/syncing_chain.rs:47-52). -/
structure BatchInfo where
  start_slot : Nat
  end_slot : Nat
deriving DecidableEq, Repr

/-- Embedding of `BatchInfo::new` (src/sync/syncing_chain.rs:55-63). -/
def BatchInfo.new (epoch : Nat) : BatchInfo :=
  let start_slot := epoch_start_slot epoch + 1
  { start_slot
    end_slot := start_slot + EPOCHS_PER_BATCH * slots_per_epoch }

/-- A `BlocksByRange` request (`lighthouse_network::rpc::BlocksByRangeRequest`). -/
structure BlocksByRangeRequest where
  start_slot : Nat
  count : Nat
deriving DecidableEq, Repr

/-- Embedding of `BatchInfo::to_blocks_by_range_request`
(src/sync/syncing_chain.rs:66-71). -/
def BatchInfo.to_blocks_by_range_request (b : BatchInfo) : BlocksByRangeRequest :=
  { start_slot := b.start_slot
    count := b.end_slot - b.start_slot }

/-- Sync state of a single chain (`crate::sync::syncing_chain::SyncingState`,
src/sync/syncing_chain.rs:75-80). -/
inductive SyncingState where
  | Stopped
  | Syncing
deriving DecidableEq, Repr

/-- Embedding of `crate::sync::syncing_chain::SyncingChain`
(src/sync/syncing_chain.rs:24-44).  `peers` maps a peer id to the set of
batch ids requested from it, modelled as an association list. -/
structure SyncingChain where
  id : Nat
  state : SyncingState
  start_epoch : Nat
  target_head_slot : Nat
  target_head_root : Nat
  peers : List (Nat × List Nat)
  to_be_downloaded : Nat
  batches : List (Nat × BatchInfo)
deriving DecidableEq, Repr

/-- Embedding of `SyncingChain::new` (src/sync/syncing_chain.rs:83-103). -/
def SyncingChain.new (hashFn : Nat → Nat → Nat) (start_epoch target_head_slot : Nat)
    (target_head_root : Nat) (peer_id : Nat) : SyncingChain :=
  { id := chain_id hashFn target_head_root target_head_slot
    state := .Stopped
    start_epoch
    target_head_slot
    target_head_root
    peers := [(peer_id, [])]
    to_be_downloaded := start_epoch
    batches := [] }

/-- Embedding of `SyncingChain::available_peers`
(src/sync/syncing_chain.rs:105-107). -/
def SyncingChain.available_peers (c : SyncingChain) : Nat := c.peers.length

/-- Embedding of `SyncingChain::next_batch` (src/sync/syncing_chain.rs:173-199):
return `None` once the next window starts at or beyond the target head
slot; skip over epochs whose batch is already tracked; otherwise record a
new `BatchInfo` and hand out the epoch, advancing `to_be_downloaded` by
`EPOCHS_PER_BATCH` either way. -/
def SyncingChain.next_batch (c : SyncingChain) : Option Nat × SyncingChain :=
  if _h : epoch_start_slot c.to_be_downloaded ≥ c.target_head_slot then
    (none, c)
  else
    let epoch := c.to_be_downloaded
    match lookupKey c.batches epoch with
    | some _ =>
      SyncingChain.next_batch { c with to_be_downloaded := epoch + EPOCHS_PER_BATCH }
    | none =>
      (some epoch,
       { c with
         to_be_downloaded := epoch + EPOCHS_PER_BATCH
         batches := (epoch, BatchInfo.new epoch) :: c.batches })
termination_by c.target_head_slot - epoch_start_slot c.to_be_downloaded
decreasing_by
  simp only [epoch_start_slot, slots_per_epoch, EPOCHS_PER_BATCH] at *
  omega

/-- Embedding of `SyncingChain::send_batch` (src/sync/syncing_chain.rs:202-230):
look up the batch for the epoch and send its `BlocksByRange` request to
the peer through the network context; the chain itself is unchanged.
Returns the request sent, if any. -/
def SyncingChain.send_batch (c : SyncingChain) (peer_id epoch : Nat) :
    Option (Nat × BlocksByRangeRequest) :=
  match lookupKey c.batches epoch with
  | none => none
  | some batch_info => some (peer_id, batch_info.to_blocks_by_range_request)

/-- Loop body of `SyncingChain::request_batches`
(src/sync/syncing_chain.rs:161-168): iterate over a snapshot of the peer
map, drawing one batch per peer until `next_batch` yields `None`. -/
def requestBatchesGo (c : SyncingChain) (peerList : List (Nat × List Nat)) :
    SyncingChain × List (Nat × BlocksByRangeRequest) :=
  match peerList with
  | [] => (c, [])
  | (peer_id, _) :: rest =>
    match c.next_batch with
    | (some epoch, c1) =>
      let sent := (c1.send_batch peer_id epoch).toList
      let (c2, reqs) := requestBatchesGo c1 rest
      (c2, sent ++ reqs)
    | (none, c1) => (c1, [])

/-- Embedding of `SyncingChain::request_batches`
(src/sync/syncing_chain.rs:152-169): a no-op unless the chain state is
`Syncing`.  Returns the chain plus the requests sent to the network. -/
def SyncingChain.request_batches (c : SyncingChain) :
    SyncingChain × List (Nat × BlocksByRangeRequest) :=
  if c.state = .Syncing then requestBatchesGo c c.peers else (c, [])

/-- Embedding of `SyncingChain::add_peer` (src/sync/syncing_chain.rs:112-116):
`peers.entry(peer_id).or_default()` inserts an empty requested-batch set
when the peer is new, and `request_batches` runs when that set is empty. -/
def SyncingChain.add_peer (c : SyncingChain) (peer_id : Nat) :
    SyncingChain × List (Nat × BlocksByRangeRequest) :=
  match lookupKey c.peers peer_id with
  | none =>
    SyncingChain.request_batches { c with peers := c.peers ++ [(peer_id, [])] }
  | some requested =>
    if requested.isEmpty then c.request_batches else (c, [])

/-- Overall range-sync state (`crate::sync::chain_collection::RangeSyncState`,
src/sync/chain_collection.rs:16-21). -/
inductive RangeSyncState where
  | Idle
  | Syncing (id : Nat)
deriving DecidableEq, Repr

/-- Embedding of `crate::sync::chain_collection::ChainCollection`
(src/sync/chain_collection.rs:9-14). -/
structure ChainCollection where
  state : RangeSyncState
  finalized_chains : List (Nat × SyncingChain)
deriving DecidableEq, Repr

/-- Embedding of `ChainCollection::new` (src/sync/chain_collection.rs:24-29). -/
def ChainCollection.new : ChainCollection :=
  { state := .Idle
    finalized_chains := [] }

/-- Embedding of `ChainCollection::add_peer_or_create_chain`
(src/sync/chain_collection.rs:31-60).  The occupied branch asserts that
the stored chain's target matches the reported one; an assertion failure
aborts the process, modelled by returning `none`.  On success the result
is the updated collection together with the `BlocksByRange` requests sent
while adding the peer. -/
def ChainCollection.add_peer_or_create_chain (hashFn : Nat → Nat → Nat)
    (cc : ChainCollection) (peer_id start_epoch : Nat)
    (target_head_root target_head_slot : Nat) :
    Option (ChainCollection × List (Nat × BlocksByRangeRequest)) :=
  let cid := chain_id hashFn target_head_root target_head_slot
  match lookupKey cc.finalized_chains cid with
  | some existing =>
    if existing.target_head_root = target_head_root ∧ existing.target_head_slot = target_head_slot then
      let (chain, reqs) := existing.add_peer peer_id
      some
        ({ cc with
           finalized_chains := cc.finalized_chains.map (fun e =>
             if e.1 = cid then (e.1, chain) else e) },
         reqs)
    else
      none
  | none =>
    some
      ({ cc with
         finalized_chains :=
           (cid, SyncingChain.new hashFn start_epoch target_head_slot target_head_root peer_id)
             :: cc.finalized_chains },
       [])

/-!
RPC connection handler (src/rpc/handler.rs).

Time is modelled explicitly: operations that read the clock
(`Instant::now()`, `sleep_until`) take the current time `now : Nat` in
seconds; a `ShuttingDown` deadline of `d` fires on any poll at time
`now ≥ d`.  Substream payloads (framed streams, futures) are out of the
model: an inbound substream is represented by its bookkeeping state.
-/

/-- Embedding of `SHUTDOWN_TIMEOUT_SECS` (src/rpc/handler.rs:88). -/
def SHUTDOWN_TIMEOUT_SECS : Nat := 15

/-- Handler lifecycle state (`crate::rpc::handler::HandlerState`,
src/rpc/handler.rs:91-102); the `ShuttingDown` sleep is represented by
its deadline. -/
inductive HandlerState where
  | Active
  | ShuttingDown (deadline : Nat)
  | Deactivated
deriving DecidableEq, Repr

/-- Inbound request kinds
(`lighthouse_network::rpc::protocol::InboundRequest`), restricted to the
shapes this repository distinguishes. -/
inductive InboundRequestKind where
  | status (message : StatusMessage)
  | goodbye (reason : GoodbyeReason)
  | blocksByRange (request : BlocksByRangeRequest)
deriving DecidableEq, Repr

/-- Outbound request kinds
(`lighthouse_network::rpc::outbound::OutboundRequest`), restricted to the
shapes this repository issues. -/
inductive OutboundRequestKind where
  | status (message : StatusMessage)
  | goodbye (reason : GoodbyeReason)
  | blocksByRange (request : BlocksByRangeRequest)
deriving DecidableEq, Repr

/-- State of one inbound substream
(`crate::rpc::handler::InboundSubstreamState`, src/rpc/handler.rs:47-54);
the framed stream and in-flight send future are out of the model. -/
inductive InboundSubstreamState where
  | Idle
  | Busy
  | Poisoned
deriving DecidableEq, Repr

/-- Bookkeeping for one inbound substream
(`crate::rpc::handler::InboundSubstreamInfo`, src/rpc/handler.rs:56-61);
queued responses are modelled by opaque ids. -/
structure InboundSubstreamInfo where
  state : InboundSubstreamState
  responses_to_send : List Nat
deriving DecidableEq, Repr

/-- Messages the handler surfaces to the behaviour
(`crate::rpc::handler::HandlerReceived`, src/rpc/handler.rs:69-75). -/
inductive HandlerReceived where
  | Request (substream_id : Nat) (request : InboundRequestKind)
  | Response (response : Nat)
  | CloseConnection
deriving DecidableEq, Repr

/-- The per-connection handler (`crate::rpc::handler::Handler`,
src/rpc/handler.rs:104-123).  The two `SubstreamIdGenerator`s are
modelled by their `current_id` counters; `dial_queue` entries keep the
request id (`Id` is instantiated to `Nat`) and the request. -/
structure Handler where
  state : HandlerState
  dial_queue : List (Nat × OutboundRequestKind)
  out_events : List HandlerReceived
  inbound_substreams : List (Nat × InboundSubstreamInfo)
  inbound_substream_id : Nat
  outbound_substreams : List Nat
  outbound_substream_id : Nat
deriving DecidableEq, Repr

/-- Embedding of `Handler::new` (src/rpc/handler.rs:126-141). -/
def Handler.new : Handler :=
  { state := .Active
    dial_queue := []
    out_events := []
    inbound_substreams := []
    inbound_substream_id := 0
    outbound_substreams := []
    outbound_substream_id := 0 }

/-- Embedding of `Handler::send_status` (src/rpc/handler.rs:145-158):
unconditionally queue an outbound `Status` request. -/
def Handler.send_status (h : Handler) (request_id : Nat) (status_message : StatusMessage) :
    Handler :=
  { h with dial_queue := h.dial_queue ++ [(request_id, .status status_message)] }

/-- Embedding of `Handler::shutdown` (src/rpc/handler.rs:162-194): a no-op
unless the state is `Active`; otherwise queue the optional GOODBYE and
move to `ShuttingDown` with a deadline `SHUTDOWN_TIMEOUT_SECS` from now. -/
def Handler.shutdown (h : Handler) (now : Nat) (reason : Option (Nat × GoodbyeReason)) :
    Handler :=
  if h.state ≠ .Active then
    h
  else
    let h : Handler :=
      match reason with
      | some (request_id, r) =>
        { h with dial_queue := h.dial_queue ++ [(request_id, OutboundRequestKind.goodbye r)] }
      | none => h
    { h with state := .ShuttingDown (now + SHUTDOWN_TIMEOUT_SECS) }

/-- Embedding of `Handler::send_request` (src/rpc/handler.rs:196-212): the
request joins the dial queue only in the `Active` state; otherwise
nothing happens. -/
def Handler.send_request (h : Handler) (request_id : Nat) (request : OutboundRequestKind) :
    Handler :=
  match h.state with
  | .Active => { h with dial_queue := h.dial_queue ++ [(request_id, request)] }
  | _ => h

/-- Embedding of `Handler::send_response` (src/rpc/handler.rs:214-231):
append the response to the named inbound substream's queue; log and do
nothing when the substream is unknown. -/
def Handler.send_response (h : Handler) (substream_id : Nat) (response : Nat) : Handler :=
  match lookupKey h.inbound_substreams substream_id with
  | none => h
  | some _ =>
    { h with
      inbound_substreams := h.inbound_substreams.map (fun kv =>
        if kv.1 = substream_id then
          (kv.1, { kv.2 with responses_to_send := kv.2.responses_to_send ++ [response] })
        else kv) }

/-- Embedding of `Handler::on_fully_negotiated_inbound`
(src/rpc/handler.rs:234-272): mint the next inbound substream id, store
an `Idle` substream with an empty response queue, begin the shutdown
sequence when the request is a GOODBYE, and push the `Request` event for
the behaviour (the source does this unconditionally, GOODBYE included). -/
def Handler.on_fully_negotiated_inbound (h : Handler) (now : Nat)
    (request : InboundRequestKind) : Handler :=
  let inbound_substream_id := h.inbound_substream_id
  let h :=
    { h with
      inbound_substream_id := inbound_substream_id + 1
      inbound_substreams :=
        (inbound_substream_id, { state := .Idle, responses_to_send := [] })
          :: h.inbound_substreams.filter (fun kv => kv.1 ≠ inbound_substream_id) }
  let h :=
    match request with
    | .goodbye _ => h.shutdown now none
    | _ => h
  { h with out_events := h.out_events ++ [.Request inbound_substream_id request] }

/-- Embedding of the shutdown-timer check at the top of `Handler::poll`
(src/rpc/handler.rs:345-356): when the state is `ShuttingDown` and the
deadline has passed, the state becomes `Deactivated` and a
`CloseConnection` notification is returned to the behaviour.  The rest of
`poll` (dial-queue, event queue, substream draining) never touches
`state`. -/
def Handler.poll_shutdown_timer (h : Handler) (now : Nat) : Handler × Option HandlerReceived :=
  match h.state with
  | .ShuttingDown deadline =>
    if now ≥ deadline then
      ({ h with state := .Deactivated }, some .CloseConnection)
    else
      (h, none)
  | _ => (h, none)

/-- Embedding of `Handler::connection_keep_alive` (src/rpc/handler.rs:320-327). -/
def Handler.connection_keep_alive (h : Handler) : Bool :=
  h.state ≠ .Deactivated

/-- One externally triggered handler operation: the four behaviour
instructions dispatched by `on_behaviour_event` (src/rpc/handler.rs:534-551),
a successful inbound negotiation (`on_connection_event` →
`on_fully_negotiated_inbound`), or a poll of the shutdown timer.  Events
that read the clock carry the current time. -/
inductive HandlerEvent where
  | instructionStatus (request_id : Nat) (message : StatusMessage)
  | instructionGoodbye (request_id : Nat) (reason : GoodbyeReason) (now : Nat)
  | instructionRequest (request_id : Nat) (request : OutboundRequestKind)
  | instructionResponse (substream_id : Nat) (response : Nat)
  | negotiatedInbound (request : InboundRequestKind) (now : Nat)
  | pollTimer (now : Nat)
deriving DecidableEq, Repr

/-- Dispatch of one handler event to the corresponding source operation. -/
def Handler.step (h : Handler) (e : HandlerEvent) : Handler × Option HandlerReceived :=
  match e with
  | .instructionStatus request_id message => (h.send_status request_id message, none)
  | .instructionGoodbye request_id reason now =>
    (h.shutdown now (some (request_id, reason)), none)
  | .instructionRequest request_id request => (h.send_request request_id request, none)
  | .instructionResponse substream_id response => (h.send_response substream_id response, none)
  | .negotiatedInbound request now => (h.on_fully_negotiated_inbound now request, none)
  | .pollTimer now => h.poll_shutdown_timer now

/-- An event counts as sending or receiving a GOODBYE when it is either the
behaviour's `Goodbye` instruction or an inbound negotiation whose request
is a GOODBYE. -/
def HandlerEvent.isGoodbyeTrigger : HandlerEvent → Bool
  | .instructionGoodbye _ _ _ => true
  | .negotiatedInbound (.goodbye _) _ => true
  | _ => false

/-- The clock value an event carries (0 for events that do not read the
clock; those events never arm a deadline). -/
def HandlerEvent.now : HandlerEvent → Nat
  | .instructionGoodbye _ _ now => now
  | .negotiatedInbound _ now => now
  | .pollTimer now => now
  | _ => 0

/-!
PeerDB lifecycle (src/peer_manager/behaviour.rs, src/sync/mod.rs,
src/peer_manager/mod.rs): every write the code performs on the PeerDB,
as a transition system over the store.
-/

/-- The events whose handlers write to the PeerDB:

* `connectionEstablished` — `PeerManager::on_swarm_event` on
  `FromSwarm::ConnectionEstablished` (src/peer_manager/behaviour.rs:46-85);
  both the dialer and the listener arm call `PeerDB::add_peer`.
* `connectionClosed` — the same handler on `FromSwarm::ConnectionClosed`
  (src/peer_manager/behaviour.rs:86-102): ignored while redundant
  connections remain, otherwise `update_connection_status(Disconnected)`.
* `statusValidated` — `SyncManager::add_peer` (src/sync/mod.rs:98-111)
  recording the classification of a validated STATUS exchange.
* `statusIrrelevant` — `PeerManager::goodbye(.., IrrelevantNetwork)`
  (src/peer_manager/mod.rs:87-107) after a STATUS exchange failed the
  relevance check. -/
inductive PeerDBEvent where
  | connectionEstablished (peer_id address : Nat)
  | connectionClosed (peer_id remaining_established now : Nat)
  | statusValidated (peer_id : Nat) (sync_status : SyncStatus)
  | statusIrrelevant (peer_id : Nat)
deriving DecidableEq, Repr

/-- Effect of one event on the PeerDB, following the cited handlers. -/
def PeerDB.step (db : PeerDB) (e : PeerDBEvent) : PeerDB :=
  match e with
  | .connectionEstablished peer_id address => db.add_peer peer_id address
  | .connectionClosed peer_id remaining_established now =>
    if remaining_established > 0 then db
    else db.update_connection_status peer_id (.Disconnected now)
  | .statusValidated peer_id sync_status => db.update_sync_status peer_id sync_status
  | .statusIrrelevant peer_id =>
    (db.update_sync_status peer_id .IrrelevantPeer).update_connection_status peer_id .Disconnecting

/-- The PeerDB reached from an empty store after a sequence of events. -/
def PeerDB.run (events : List PeerDBEvent) : PeerDB :=
  events.foldl PeerDB.step PeerDB.new

/-- Events that are (part of) a STATUS exchange for a given peer. -/
def PeerDBEvent.isStatusExchangeFor (e : PeerDBEvent) (peer_id : Nat) : Bool :=
  match e with
  | .statusValidated p _ => p = peer_id
  | .statusIrrelevant p => p = peer_id
  | _ => false


/-!
Association-list helper lemmas shared by several proofs below.
-/

/-- Updating the value stored under key `p` changes lookup at `p` by exactly
that value transformation. -/
theorem lookupKey_map_update {β : Type} (l : List (Nat × β)) (p : Nat) (f : β → β) :
    lookupKey (l.map (fun kv => if kv.1 = p then (kv.1, f kv.2) else kv)) p
      = (lookupKey l p).map f := by
  induction l with
  | nil => simp [lookupKey]
  | cons a t ih =>
    by_cases hp : a.1 = p
    · simp [lookupKey, hp]
    · simp [lookupKey, hp, ih]

/-- Updating the value stored under key `p` leaves lookup at any other key
unchanged. -/
theorem lookupKey_map_update_ne {β : Type} (l : List (Nat × β)) (p q : Nat) (f : β → β)
    (hpq : p ≠ q) :
    lookupKey (l.map (fun kv => if kv.1 = p then (kv.1, f kv.2) else kv)) q
      = lookupKey l q := by
  induction l with
  | nil => simp [lookupKey]
  | cons a t ih =>
    by_cases hp : a.1 = p
    · simp [lookupKey, hp, hpq, Ne.symm hpq, ih]
    · by_cases hq : a.1 = q
      · simp [lookupKey, hp, hq, hpq, Ne.symm hpq]
      · simp [lookupKey, hp, hq, ih]

/-- Dropping all bindings of key `p` leaves lookup at any other key
unchanged. -/
theorem lookupKey_filter_ne {β : Type} (l : List (Nat × β)) (p q : Nat) (hpq : p ≠ q) :
    lookupKey (l.filter (fun kv => !decide (kv.1 = p))) q = lookupKey l q := by
  induction l with
  | nil => simp [lookupKey]
  | cons a t ih =>
    simp only [List.filter_cons]
    by_cases hp : a.1 = p
    · have hq : ¬a.1 = q := by rw [hp]; exact hpq
      simp [lookupKey, hp, hq, hpq, ih]
    · by_cases hq : a.1 = q
      · simp [lookupKey, hp, hq, Ne.symm hpq]
      · simp [lookupKey, hp, hq, ih]

/-- PeerDB lookup after `update_sync_status` on the same peer. -/
theorem PeerDB.find?_update_sync_status (db : PeerDB) (p : Nat) (s : SyncStatus) :
    (db.update_sync_status p s).find? p
      = (db.find? p).map (fun i => { i with sync_status := s }) := by
  unfold PeerDB.update_sync_status PeerDB.find?
  cases h : lookupKey db.peers p with
  | none => simp [h]
  | some info =>
    simp only []
    rw [← h]
    exact lookupKey_map_update db.peers p (fun i => { i with sync_status := s })

/-- PeerDB lookup after `update_sync_status` on a different peer. -/
theorem PeerDB.find?_update_sync_status_ne (db : PeerDB) (p q : Nat) (s : SyncStatus)
    (hpq : p ≠ q) :
    (db.update_sync_status p s).find? q = db.find? q := by
  unfold PeerDB.update_sync_status PeerDB.find?
  cases h : lookupKey db.peers p with
  | none => simp
  | some info =>
    simp only []
    exact lookupKey_map_update_ne db.peers p q (fun i => { i with sync_status := s }) hpq

/-- PeerDB lookup after `update_connection_status` on the same peer. -/
theorem PeerDB.find?_update_connection_status (db : PeerDB) (p : Nat) (c : ConnectionStatus) :
    (db.update_connection_status p c).find? p
      = (db.find? p).map (fun i => { i with connection_status := c }) := by
  unfold PeerDB.update_connection_status PeerDB.find?
  cases h : lookupKey db.peers p with
  | none => simp [h]
  | some info =>
    simp only []
    rw [← h]
    exact lookupKey_map_update db.peers p (fun i => { i with connection_status := c })

/-- PeerDB lookup after `update_connection_status` on a different peer. -/
theorem PeerDB.find?_update_connection_status_ne (db : PeerDB) (p q : Nat)
    (c : ConnectionStatus) (hpq : p ≠ q) :
    (db.update_connection_status p c).find? q = db.find? q := by
  unfold PeerDB.update_connection_status PeerDB.find?
  cases h : lookupKey db.peers p with
  | none => simp
  | some info =>
    simp only []
    exact lookupKey_map_update_ne db.peers p q (fun i => { i with connection_status := c }) hpq

/-- PeerDB lookup after `add_peer` on the same peer: the fresh record. -/
theorem PeerDB.find?_add_peer (db : PeerDB) (p a : Nat) :
    (db.add_peer p a).find? p = some (PeerInfo.new a) := by
  unfold PeerDB.add_peer PeerDB.find?
  simp [lookupKey]

/-- PeerDB lookup after `add_peer` on a different peer. -/
theorem PeerDB.find?_add_peer_ne (db : PeerDB) (p a q : Nat) (hpq : p ≠ q) :
    (db.add_peer p a).find? q = db.find? q := by
  unfold PeerDB.add_peer PeerDB.find?
  simp only [lookupKey, hpq, if_neg (by exact hpq)]
  simpa using lookupKey_filter_ne db.peers p q hpq

/-!
Claim C1 — STATUS relevance.
-/

/-- C1, counterexample: the claim states `is_relevant(A,B)` is false iff
`A.fork_digest ≠ B.fork_digest` or `B.head_slot > A.head_slot`, with `A`
the local status record.  The code instead compares `B.head_slot` against
the local wall-clock slot `self.slot()`.  With the local (genesis) head
at slot 0, the clock at slot 90 and a remote head at slot 50, the code
accepts the peer while the claim predicts rejection. -/
theorem is_relevant_claim_counterexample :
    ¬((BeaconChain.mk ⟨[1, 1, 1, 1], 0, 5, 0, 0⟩ 90).is_relevant
          ⟨[1, 1, 1, 1], 0, 5, 0, 50⟩ = false
        ↔ ((StatusMessage.mk [1, 1, 1, 1] 0 5 0 0).fork_digest
              ≠ (StatusMessage.mk [1, 1, 1, 1] 0 5 0 50).fork_digest
            ∨ (StatusMessage.mk [1, 1, 1, 1] 0 5 0 50).head_slot
              > (StatusMessage.mk [1, 1, 1, 1] 0 5 0 0).head_slot)) := by
  decide

/-- C1, amended: `is_relevant(A,B)` is false iff `A.fork_digest ≠
B.fork_digest` or `B.head_slot` exceeds the local chain's current
wall-clock slot (`self.slot()`) at the time of the check; true
otherwise. -/
theorem is_relevant_false_iff (chain : BeaconChain) (remote_status : StatusMessage) :
    chain.is_relevant remote_status = false
      ↔ (chain.local_status.fork_digest ≠ remote_status.fork_digest
          ∨ remote_status.head_slot > chain.current_slot) := by
  unfold BeaconChain.is_relevant
  by_cases hd : chain.local_status.fork_digest = remote_status.fork_digest
  · by_cases hs : remote_status.head_slot > chain.current_slot
    · simp [hd, hs]
    · simp [hd, hs]
  · simp [hd]

/-!
Claim C2 — sync classification on `SyncManager::add_peer`.
-/

/-- Closed form of the three-way classification, used below. -/
theorem determine_sync_relevance_eq (local_sync_info remote_sync_info : SyncInfo) :
    determine_sync_relevance local_sync_info remote_sync_info =
      if remote_sync_info.finalized_epoch < local_sync_info.finalized_epoch then .Behind
      else if remote_sync_info.finalized_epoch = local_sync_info.finalized_epoch then .FullySynced
      else .Advanced := by
  unfold determine_sync_relevance
  rcases Nat.lt_trichotomy remote_sync_info.finalized_epoch local_sync_info.finalized_epoch
    with h | h | h
  · rw [Nat.compare_eq_lt.mpr h]
    simp [h]
  · rw [Nat.compare_eq_eq.mpr h]
    simp [h]
  · rw [Nat.compare_eq_gt.mpr h]
    have h1 : ¬remote_sync_info.finalized_epoch < local_sync_info.finalized_epoch := by omega
    have h2 : ¬remote_sync_info.finalized_epoch = local_sync_info.finalized_epoch := by omega
    simp [h1, h2]

/-- C2: `SyncManager::add_peer` classifies the peer as exactly one of
Behind (remote finalized epoch below local), FullySynced (equal) or
Advanced (above); it overwrites the peer's PeerDB `sync_status` with the
image of the classification under the injective `SyncRelevance →
SyncStatus` conversion; and it hands the peer to `RangeSync` exactly in
the Advanced case. -/
theorem SyncManager.add_peer_spec (db : PeerDB) (peer_id : Nat)
    (local_sync_info remote_sync_info : SyncInfo) (info : PeerInfo)
    (hmem : db.find? peer_id = some info) :
    ((determine_sync_relevance local_sync_info remote_sync_info = .Behind
        ↔ remote_sync_info.finalized_epoch < local_sync_info.finalized_epoch)
      ∧ (determine_sync_relevance local_sync_info remote_sync_info = .FullySynced
        ↔ remote_sync_info.finalized_epoch = local_sync_info.finalized_epoch)
      ∧ (determine_sync_relevance local_sync_info remote_sync_info = .Advanced
        ↔ local_sync_info.finalized_epoch < remote_sync_info.finalized_epoch))
    ∧ (SyncManager.add_peer db peer_id local_sync_info remote_sync_info).1.find? peer_id
        = some { info with sync_status :=
            (determine_sync_relevance local_sync_info remote_sync_info).toSyncStatus }
    ∧ ((SyncManager.add_peer db peer_id local_sync_info remote_sync_info).2 = true
        ↔ determine_sync_relevance local_sync_info remote_sync_info = .Advanced)
    ∧ (∀ r₁ r₂ : SyncRelevance, r₁.toSyncStatus = r₂.toSyncStatus → r₁ = r₂) := by
  refine ⟨⟨?_, ?_, ?_⟩, ?_, ?_, ?_⟩
  · rw [determine_sync_relevance_eq]
    split_ifs with h1 h2 <;> simp_all
  · rw [determine_sync_relevance_eq]
    split_ifs with h1 h2 <;> simp_all
    all_goals omega
  · rw [determine_sync_relevance_eq]
    split_ifs with h1 h2 <;> simp_all
    all_goals omega
  · unfold SyncManager.add_peer
    simp only []
    rw [PeerDB.find?_update_sync_status, hmem]
    rfl
  · unfold SyncManager.add_peer
    simp
  · intro r₁ r₂ h
    cases r₁ <;> cases r₂ <;> simp_all [SyncRelevance.toSyncStatus]

/-- C2 witness: a two-peer database and the concrete statuses of spec
scenario 3 (local finalized epoch 5, remote finalized epoch 10). -/
theorem SyncManager.add_peer_spec_witness :
    (PeerDB.mk [(7, PeerInfo.new 3)]).find? 7 = some (PeerInfo.new 3)
    ∧ ((SyncManager.add_peer (PeerDB.mk [(7, PeerInfo.new 3)]) 7
          (SyncInfo.mk 0 5 0 100) (SyncInfo.mk 1 10 2 500)).2 = true
        ↔ determine_sync_relevance (SyncInfo.mk 0 5 0 100) (SyncInfo.mk 1 10 2 500)
            = .Advanced) :=
  ⟨by decide,
    (SyncManager.add_peer_spec (PeerDB.mk [(7, PeerInfo.new 3)]) 7
        (SyncInfo.mk 0 5 0 100) (SyncInfo.mk 1 10 2 500) (PeerInfo.new 3)
        (by decide)).2.2.1⟩

/-!
Claim C3 — range-sync type selection.
-/

/-- C3, counterexample: the claim states Finalized sync is selected iff the
remote finalized root differs from the local one (and is unknown); the
code instead requires the remote root to be strictly greater.  With local
root 1, remote root 0 (different, unknown), the code selects Head sync
while the claim predicts Finalized. -/
theorem range_sync_type_claim_counterexample :
    ¬(RangeSyncType.new (SyncInfo.mk 1 5 0 100) (SyncInfo.mk 0 10 0 500) false = .Finalized
        ↔ ((SyncInfo.mk 0 10 0 500).finalized_root ≠ (SyncInfo.mk 1 5 0 100).finalized_root
            ∧ false = false)) := by
  decide

/-- C3, amended: `RangeSyncType::new` selects Finalized sync iff the remote
finalized root is strictly greater than the local finalized root (in the
byte-lexicographic order of `Hash256`, i.e. as big-endian integers) and
that root is not already known locally; in every other case it selects
Head sync. -/
theorem RangeSyncType.new_spec (local_sync_info remote_sync_info : SyncInfo)
    (is_block_known : Bool) :
    (RangeSyncType.new local_sync_info remote_sync_info is_block_known = .Finalized
        ↔ (local_sync_info.finalized_root < remote_sync_info.finalized_root
            ∧ is_block_known = false))
    ∧ (RangeSyncType.new local_sync_info remote_sync_info is_block_known = .Head
        ↔ ¬(local_sync_info.finalized_root < remote_sync_info.finalized_root
            ∧ is_block_known = false)) := by
  cases is_block_known <;>
    by_cases hr : local_sync_info.finalized_root < remote_sync_info.finalized_root <;>
    simp [RangeSyncType.new, hr]

/-!
Claim C4 — chain-id determinism and peer merging.
-/

/-- C4: the chain id is a pure function of `(target_root, target_slot)` —
the embedding is parametric in the `DefaultHasher` function, so this
holds for the actual hasher — and therefore a second peer reporting the
identical `(finalized_root, head_slot)` target lands on the occupied
entry of the same chain id in `ChainCollection::add_peer_or_create_chain`
and is added to the existing `SyncingChain` (whose stored `id` equals
that chain id), after which `available_peers()` is 2.  Both calls return
`some`: the target-match assertion in the occupied branch cannot fire for
an identical target. -/
theorem chain_id_peer_merge (hashFn : Nat → Nat → Nat)
    (peer1 peer2 start_epoch target_head_root target_head_slot : Nat)
    (hne : peer1 ≠ peer2) :
    ChainCollection.add_peer_or_create_chain hashFn ChainCollection.new
        peer1 start_epoch target_head_root target_head_slot
      = some
          (⟨.Idle, [(chain_id hashFn target_head_root target_head_slot,
            SyncingChain.new hashFn start_epoch target_head_slot target_head_root peer1)]⟩, [])
    ∧ ChainCollection.add_peer_or_create_chain hashFn
        ⟨.Idle, [(chain_id hashFn target_head_root target_head_slot,
          SyncingChain.new hashFn start_epoch target_head_slot target_head_root peer1)]⟩
        peer2 start_epoch target_head_root target_head_slot
      = some
          (⟨.Idle, [(chain_id hashFn target_head_root target_head_slot,
            { SyncingChain.new hashFn start_epoch target_head_slot target_head_root peer1 with
                peers := [(peer1, []), (peer2, [])] })]⟩, [])
    ∧ ({ SyncingChain.new hashFn start_epoch target_head_slot target_head_root peer1 with
          peers := [(peer1, []), (peer2, [])] }).available_peers = 2
    ∧ ({ SyncingChain.new hashFn start_epoch target_head_slot target_head_root peer1 with
          peers := [(peer1, []), (peer2, [])] }).id
        = chain_id hashFn target_head_root target_head_slot := by
  refine ⟨rfl, ?_, rfl, rfl⟩
  simp [ChainCollection.add_peer_or_create_chain, chain_id, SyncingChain.new, lookupKey,
    SyncingChain.add_peer, SyncingChain.request_batches, SyncingChain.available_peers, hne]

/-- C4 witness: two distinct peers (ids 1 and 2) reporting target
`(root 11, slot 500)`, with an additively modelled hasher. -/
theorem chain_id_peer_merge_witness :
    (1 : Nat) ≠ 2
    ∧ ({ SyncingChain.new (fun a b => a + b) 5 500 11 1 with
          peers := [(1, []), (2, [])] }).available_peers = 2 :=
  ⟨by decide, (chain_id_peer_merge (fun a b => a + b) 1 2 5 11 500 (by decide)).2.2.1⟩

/-!
Claim C5 — batch windows handed out by `next_batch`.
-/

/-- Results of `n` successive `next_batch()` calls on a chain, threading the
updated chain through. -/
def nextBatchOutputs : SyncingChain → Nat → List (Option Nat)
  | _, 0 => []
  | c, n + 1 =>
    let r := c.next_batch
    r.1 :: nextBatchOutputs r.2 n

/-- Invariant maintained by `next_batch`: every tracked batch lies strictly
below `to_be_downloaded`, so lookup at or above it misses.  A fresh chain
(empty batch map) satisfies it trivially. -/
def batchesBelow (c : SyncingChain) : Prop :=
  ∀ e, c.to_be_downloaded ≤ e → lookupKey c.batches e = none

/-- One `next_batch` step when the next window has reached the target. -/
theorem next_batch_stop (c : SyncingChain)
    (h : epoch_start_slot c.to_be_downloaded ≥ c.target_head_slot) :
    c.next_batch = (none, c) := by
  unfold SyncingChain.next_batch
  simp [h]

/-- One `next_batch` step under the invariant when the window is still below
the target: the current `to_be_downloaded` epoch is handed out. -/
theorem next_batch_go (c : SyncingChain) (hinv : batchesBelow c)
    (h : epoch_start_slot c.to_be_downloaded < c.target_head_slot) :
    c.next_batch = (some c.to_be_downloaded,
      { c with
        to_be_downloaded := c.to_be_downloaded + EPOCHS_PER_BATCH
        batches := (c.to_be_downloaded, BatchInfo.new c.to_be_downloaded) :: c.batches }) := by
  unfold SyncingChain.next_batch
  have hng : ¬epoch_start_slot c.to_be_downloaded ≥ c.target_head_slot := by omega
  simp only [hng, dite_false, dif_neg]
  rw [hinv c.to_be_downloaded le_rfl]

/-- The invariant survives a productive `next_batch` step. -/
theorem batchesBelow_go (c : SyncingChain) (hinv : batchesBelow c) :
    batchesBelow
      { c with
        to_be_downloaded := c.to_be_downloaded + EPOCHS_PER_BATCH
        batches := (c.to_be_downloaded, BatchInfo.new c.to_be_downloaded) :: c.batches } := by
  intro e he
  simp only [] at he ⊢
  have hne : c.to_be_downloaded ≠ e := by
    simp only [EPOCHS_PER_BATCH] at he
    omega
  simp only [lookupKey, hne, if_false, if_neg hne]
  exact hinv e (by simp only [EPOCHS_PER_BATCH] at he; omega)

/-- Closed form for the outputs of `n` successive `next_batch` calls under
the invariant: the `i`-th call hands out epoch
`to_be_downloaded + EPOCHS_PER_BATCH * i` when that window still starts
below the target head slot, and `none` otherwise. -/
theorem nextBatchOutputs_formula (n : Nat) (c : SyncingChain) (hinv : batchesBelow c) :
    nextBatchOutputs c n = (List.range n).map (fun i =>
      if epoch_start_slot (c.to_be_downloaded + EPOCHS_PER_BATCH * i) < c.target_head_slot
      then some (c.to_be_downloaded + EPOCHS_PER_BATCH * i)
      else none) := by
  induction n generalizing c with
  | zero => simp [nextBatchOutputs]
  | succ n ih =>
    rw [List.range_succ_eq_map, List.map_cons, List.map_map]
    by_cases hstop : epoch_start_slot c.to_be_downloaded ≥ c.target_head_slot
    · rw [show nextBatchOutputs c (n + 1) = (c.next_batch).1 :: nextBatchOutputs (c.next_batch).2 n
        from rfl]
      rw [next_batch_stop c hstop]
      simp only []
      have h0 : ¬epoch_start_slot (c.to_be_downloaded + EPOCHS_PER_BATCH * 0)
          < c.target_head_slot := by
        simpa using hstop
      rw [if_neg h0]
      rw [ih c hinv]
      congr 1
      apply List.map_congr_left
      intro i _
      have hbig : ¬epoch_start_slot (c.to_be_downloaded + EPOCHS_PER_BATCH * i)
          < c.target_head_slot := by
        simp only [epoch_start_slot, slots_per_epoch] at hstop ⊢
        omega
      have hbig1 : ¬epoch_start_slot (c.to_be_downloaded + EPOCHS_PER_BATCH * (i + 1))
          < c.target_head_slot := by
        simp only [epoch_start_slot, slots_per_epoch] at hstop ⊢
        omega
      simp [hbig, hbig1]
    · have hlt : epoch_start_slot c.to_be_downloaded < c.target_head_slot := by omega
      rw [show nextBatchOutputs c (n + 1) = (c.next_batch).1 :: nextBatchOutputs (c.next_batch).2 n
        from rfl]
      rw [next_batch_go c hinv hlt]
      simp only []
      have h0 : epoch_start_slot (c.to_be_downloaded + EPOCHS_PER_BATCH * 0)
          < c.target_head_slot := by
        simpa using hlt
      rw [if_pos h0]
      rw [ih _ (batchesBelow_go c hinv)]
      simp only [Nat.mul_zero, Nat.add_zero]
      congr 1
      apply List.map_congr_left
      intro i _
      have harith : c.to_be_downloaded + EPOCHS_PER_BATCH + EPOCHS_PER_BATCH * i
          = c.to_be_downloaded + EPOCHS_PER_BATCH * (i + 1) := by
        simp only [EPOCHS_PER_BATCH]
        ring
      simp [Function.comp, harith]

/-- Structural facts about the epochs actually handed out: consecutive
handed-out epochs differ by exactly `EPOCHS_PER_BATCH`, every handed-out
epoch is at least `to_be_downloaded`, and the first one handed out (if
any) is exactly `to_be_downloaded`. -/
theorem nextBatchCollected_props (n : Nat) (c : SyncingChain) (hinv : batchesBelow c) :
    ((nextBatchOutputs c n).filterMap id).Chain' (fun a b => b = a + EPOCHS_PER_BATCH)
    ∧ (∀ x ∈ (nextBatchOutputs c n).filterMap id, c.to_be_downloaded ≤ x)
    ∧ ((nextBatchOutputs c n).filterMap id = []
        ∨ ((nextBatchOutputs c n).filterMap id).head? = some c.to_be_downloaded) := by
  induction n generalizing c with
  | zero => simp [nextBatchOutputs]
  | succ n ih =>
    rw [show nextBatchOutputs c (n + 1) = (c.next_batch).1 :: nextBatchOutputs (c.next_batch).2 n
      from rfl]
    by_cases hstop : epoch_start_slot c.to_be_downloaded ≥ c.target_head_slot
    · rw [next_batch_stop c hstop]
      simpa using ih c hinv
    · have hlt : epoch_start_slot c.to_be_downloaded < c.target_head_slot := by omega
      rw [next_batch_go c hinv hlt]
      simp only [List.filterMap_cons, id]
      obtain ⟨ihc, ihlb, ihhd⟩ := ih _ (batchesBelow_go c hinv)
      refine ⟨?_, ?_, ?_⟩
      · rw [List.chain'_cons']
        constructor
        · intro b hb
          rcases ihhd with hnil | hhd
          · simp [hnil] at hb
          · rw [hhd] at hb
            simp only [Option.mem_def, Option.some.injEq] at hb
            simp [← hb]
        · exact ihc
      · intro x hx
        rcases List.mem_cons.mp hx with hx | hx
        · omega
        · have := ihlb x hx
          simp only [EPOCHS_PER_BATCH] at this
          omega
      · right
        rfl

/-- C5: for a single fresh `SyncingChain`, (i) the `i`-th of `n` successive
`next_batch()` calls hands out epoch `start_epoch + EPOCHS_PER_BATCH * i`
when that window starts below `target_head_slot` and `none` otherwise;
(ii) consecutive handed-out epochs increase by exactly `EPOCHS_PER_BATCH`
(= 2); (iii) no epoch is handed out twice; and (iv) for any chain whose
tracked batches lie below `to_be_downloaded` (true of a fresh chain and
preserved by every call), `next_batch()` returns `None` exactly when the
start slot of the next window is at or beyond `target_head_slot`. -/
theorem next_batch_spec (hashFn : Nat → Nat → Nat)
    (start_epoch target_head_slot target_head_root peer_id n : Nat) :
    (nextBatchOutputs
        (SyncingChain.new hashFn start_epoch target_head_slot target_head_root peer_id) n
      = (List.range n).map (fun i =>
          if epoch_start_slot (start_epoch + EPOCHS_PER_BATCH * i) < target_head_slot
          then some (start_epoch + EPOCHS_PER_BATCH * i)
          else none))
    ∧ ((nextBatchOutputs
          (SyncingChain.new hashFn start_epoch target_head_slot target_head_root peer_id) n).filterMap
          id).Chain' (fun a b => b = a + EPOCHS_PER_BATCH)
    ∧ ((nextBatchOutputs
          (SyncingChain.new hashFn start_epoch target_head_slot target_head_root peer_id) n).filterMap
          id).Nodup
    ∧ (∀ c : SyncingChain, batchesBelow c →
        ((c.next_batch).1 = none
          ↔ epoch_start_slot c.to_be_downloaded ≥ c.target_head_slot)) := by
  have hfresh : batchesBelow
      (SyncingChain.new hashFn start_epoch target_head_slot target_head_root peer_id) := by
    intro e _
    rfl
  obtain ⟨hchain, hlb, _⟩ := nextBatchCollected_props n _ hfresh
  refine ⟨nextBatchOutputs_formula n _ hfresh, hchain, ?_, ?_⟩
  · have hlt : ((nextBatchOutputs
        (SyncingChain.new hashFn start_epoch target_head_slot target_head_root peer_id) n).filterMap
        id).Chain' (· < ·) := by
      apply List.Chain'.imp _ hchain
      intro a b hab
      simp only [EPOCHS_PER_BATCH] at hab
      omega
    have hpw := List.chain'_iff_pairwise.mp hlt
    exact hpw.imp Nat.ne_of_lt
  · intro c hinv
    by_cases hstop : epoch_start_slot c.to_be_downloaded ≥ c.target_head_slot
    · rw [next_batch_stop c hstop]
      simp [hstop]
    · have hlt : epoch_start_slot c.to_be_downloaded < c.target_head_slot := by omega
      rw [next_batch_go c hinv hlt]
      simp
      omega

/-- C5 witness: a fresh chain with `start_epoch = 0` and
`target_head_slot = 100` hands out epochs 0 and 2 and then stops; the
fresh chain satisfies the batch invariant, discharging the hypothesis of
conjunct (iv). -/
theorem next_batch_spec_witness :
    batchesBelow (SyncingChain.new (fun a b => a + b) 0 100 7 1)
    ∧ (((SyncingChain.new (fun a b => a + b) 0 100 7 1).next_batch).1 = none
        ↔ epoch_start_slot
            (SyncingChain.new (fun a b => a + b) 0 100 7 1).to_be_downloaded
          ≥ (SyncingChain.new (fun a b => a + b) 0 100 7 1).target_head_slot) :=
  ⟨fun _ _ => rfl,
    (next_batch_spec (fun a b => a + b) 0 100 7 1 5).2.2.2
      (SyncingChain.new (fun a b => a + b) 0 100 7 1) (fun _ _ => rfl)⟩

/-!
Claim C6 — handler lifecycle state machine.
Per-operation facts first, then the state-machine theorem.
-/

/-- `send_status` never touches the state. -/
theorem Handler.send_status_state (h : Handler) (request_id : Nat) (m : StatusMessage) :
    (h.send_status request_id m).state = h.state := rfl

/-- The state after `shutdown`: arm the deadline only from `Active`. -/
theorem Handler.shutdown_state (h : Handler) (now : Nat)
    (reason : Option (Nat × GoodbyeReason)) :
    (h.shutdown now reason).state =
      if h.state = .Active then .ShuttingDown (now + SHUTDOWN_TIMEOUT_SECS) else h.state := by
  by_cases ha : h.state = .Active
  · cases reason with
    | none => simp [Handler.shutdown, ha]
    | some r => simp [Handler.shutdown, ha]
  · simp [Handler.shutdown, ha]

/-- `send_request` never touches the state. -/
theorem Handler.send_request_state (h : Handler) (request_id : Nat)
    (request : OutboundRequestKind) :
    (h.send_request request_id request).state = h.state := by
  cases hs : h.state <;> simp [Handler.send_request, hs]

/-- Outside `Active`, `send_request` adds nothing to the dial queue. -/
theorem Handler.send_request_dial_queue (h : Handler) (request_id : Nat)
    (request : OutboundRequestKind) (hna : h.state ≠ .Active) :
    (h.send_request request_id request).dial_queue = h.dial_queue := by
  cases hs : h.state with
  | Active => exact absurd hs hna
  | ShuttingDown d => simp [Handler.send_request, hs]
  | Deactivated => simp [Handler.send_request, hs]

/-- `send_response` never touches the state. -/
theorem Handler.send_response_state (h : Handler) (substream_id response : Nat) :
    (h.send_response substream_id response).state = h.state := by
  unfold Handler.send_response
  split <;> rfl

/-- The state after an inbound negotiation: a GOODBYE triggers the shutdown
sequence, everything else leaves the state alone. -/
theorem Handler.on_fully_negotiated_inbound_state (h : Handler) (now : Nat)
    (request : InboundRequestKind) :
    (h.on_fully_negotiated_inbound now request).state =
      match request with
      | .goodbye _ =>
        if h.state = .Active then .ShuttingDown (now + SHUTDOWN_TIMEOUT_SECS) else h.state
      | _ => h.state := by
  cases request with
  | goodbye reason =>
    show (Handler.shutdown _ now none).state = _
    rw [Handler.shutdown_state]
  | status message => rfl
  | blocksByRange request => rfl

/-- The state and emitted signal of the shutdown-timer poll. -/
theorem Handler.poll_shutdown_timer_spec (h : Handler) (now : Nat) :
    (h.poll_shutdown_timer now) =
      match h.state with
      | .ShuttingDown deadline =>
        if now ≥ deadline then ({ h with state := .Deactivated }, some .CloseConnection)
        else (h, none)
      | _ => (h, none) := rfl

/-- C6: across every handler operation, the state either stays put, moves
`Active → ShuttingDown(now + 15)` — and only on sending a GOODBYE
(behaviour instruction) or receiving one (inbound negotiation) — or
moves `ShuttingDown(deadline) → Deactivated` on a poll at or after the
deadline, emitting `CloseConnection`.  While the state is not `Active`,
`send_request` leaves the dial queue unchanged, and no operation ever
returns the state to `Active`. -/
theorem handler_state_machine (h : Handler) (e : HandlerEvent) :
    ((h.step e).1.state = h.state
      ∨ (h.state = .Active ∧ e.isGoodbyeTrigger = true
          ∧ (h.step e).1.state = .ShuttingDown (e.now + SHUTDOWN_TIMEOUT_SECS))
      ∨ (∃ deadline, h.state = .ShuttingDown deadline ∧ (h.step e).1.state = .Deactivated
          ∧ e = .pollTimer e.now ∧ e.now ≥ deadline
          ∧ (h.step e).2 = some .CloseConnection))
    ∧ (h.state ≠ .Active → ∀ request_id request,
        e = .instructionRequest request_id request → (h.step e).1.dial_queue = h.dial_queue)
    ∧ (h.state ≠ .Active → (h.step e).1.state ≠ .Active) := by
  cases e with
  | instructionStatus request_id message =>
    refine ⟨Or.inl rfl, ?_, ?_⟩
    · intro _ _ _ heq
      exact absurd heq (by simp)
    · intro hna
      exact hna
  | instructionGoodbye request_id reason now =>
    refine ⟨?_, ?_, ?_⟩
    · by_cases ha : h.state = .Active
      · right; left
        refine ⟨ha, rfl, ?_⟩
        show (h.shutdown now (some (request_id, reason))).state = _
        rw [Handler.shutdown_state, if_pos ha]
        rfl
      · left
        show (h.shutdown now (some (request_id, reason))).state = h.state
        rw [Handler.shutdown_state, if_neg ha]
    · intro _ _ _ heq
      exact absurd heq (by simp)
    · intro hna
      show (h.shutdown now (some (request_id, reason))).state ≠ .Active
      rw [Handler.shutdown_state, if_neg hna]
      exact hna
  | instructionRequest request_id request =>
    refine ⟨Or.inl (Handler.send_request_state h request_id request), ?_, ?_⟩
    · intro hna rid2 req2 heq
      injection heq with h1 h2
      subst h1
      subst h2
      exact Handler.send_request_dial_queue h request_id request hna
    · intro hna
      show (h.send_request request_id request).state ≠ .Active
      rw [Handler.send_request_state]
      exact hna
  | instructionResponse substream_id response =>
    refine ⟨Or.inl (Handler.send_response_state h substream_id response), ?_, ?_⟩
    · intro _ _ _ heq
      exact absurd heq (by simp)
    · intro hna
      show (h.send_response substream_id response).state ≠ .Active
      rw [Handler.send_response_state]
      exact hna
  | negotiatedInbound request now =>
    refine ⟨?_, ?_, ?_⟩
    · cases request with
      | goodbye reason =>
        by_cases ha : h.state = .Active
        · right; left
          refine ⟨ha, rfl, ?_⟩
          show (h.on_fully_negotiated_inbound now (.goodbye reason)).state = _
          rw [Handler.on_fully_negotiated_inbound_state]
          show (if h.state = .Active
              then HandlerState.ShuttingDown (now + SHUTDOWN_TIMEOUT_SECS) else h.state) = _
          rw [if_pos ha]
          rfl
        · left
          show (h.on_fully_negotiated_inbound now (.goodbye reason)).state = h.state
          rw [Handler.on_fully_negotiated_inbound_state]
          show (if h.state = .Active
              then HandlerState.ShuttingDown (now + SHUTDOWN_TIMEOUT_SECS) else h.state)
            = h.state
          rw [if_neg ha]
      | status message =>
        exact Or.inl (Handler.on_fully_negotiated_inbound_state h now (.status message))
      | blocksByRange req =>
        exact Or.inl (Handler.on_fully_negotiated_inbound_state h now (.blocksByRange req))
    · intro _ _ _ heq
      exact absurd heq (by simp)
    · intro hna
      cases request with
      | goodbye reason =>
        show (h.on_fully_negotiated_inbound now (.goodbye reason)).state ≠ .Active
        rw [Handler.on_fully_negotiated_inbound_state]
        show (if h.state = .Active
            then HandlerState.ShuttingDown (now + SHUTDOWN_TIMEOUT_SECS) else h.state)
          ≠ .Active
        rw [if_neg hna]
        exact hna
      | status message =>
        show (h.on_fully_negotiated_inbound now (.status message)).state ≠ .Active
        rw [Handler.on_fully_negotiated_inbound_state]
        exact hna
      | blocksByRange req =>
        show (h.on_fully_negotiated_inbound now (.blocksByRange req)).state ≠ .Active
        rw [Handler.on_fully_negotiated_inbound_state]
        exact hna
  | pollTimer now =>
    refine ⟨?_, ?_, ?_⟩
    · cases hs : h.state with
      | Active =>
        left
        show (h.poll_shutdown_timer now).1.state = _
        rw [Handler.poll_shutdown_timer_spec, hs]
        exact hs
      | Deactivated =>
        left
        show (h.poll_shutdown_timer now).1.state = _
        rw [Handler.poll_shutdown_timer_spec, hs]
        exact hs
      | ShuttingDown deadline =>
        by_cases hd : now ≥ deadline
        · right; right
          refine ⟨deadline, rfl, ?_, rfl, hd, ?_⟩
          · show (h.poll_shutdown_timer now).1.state = _
            rw [Handler.poll_shutdown_timer_spec, hs]
            show (if now ≥ deadline
                then ({ h with state := HandlerState.Deactivated },
                  some HandlerReceived.CloseConnection)
                else (h, none)).1.state = _
            rw [if_pos hd]
          · show (h.poll_shutdown_timer now).2 = _
            rw [Handler.poll_shutdown_timer_spec, hs]
            show (if now ≥ deadline
                then ({ h with state := HandlerState.Deactivated },
                  some HandlerReceived.CloseConnection)
                else (h, none)).2 = _
            rw [if_pos hd]
        · left
          show (h.poll_shutdown_timer now).1.state = _
          rw [Handler.poll_shutdown_timer_spec, hs]
          show (if now ≥ deadline
              then ({ h with state := HandlerState.Deactivated },
                some HandlerReceived.CloseConnection)
              else (h, none)).1.state = _
          rw [if_neg hd]
          exact hs
    · intro _ _ _ heq
      exact absurd heq (by simp)
    · intro hna
      cases hs : h.state with
      | Active => exact absurd hs hna
      | Deactivated =>
        show (h.poll_shutdown_timer now).1.state ≠ .Active
        rw [Handler.poll_shutdown_timer_spec, hs]
        exact hna
      | ShuttingDown deadline =>
        show (h.poll_shutdown_timer now).1.state ≠ .Active
        rw [Handler.poll_shutdown_timer_spec, hs]
        by_cases hd : now ≥ deadline
        · show (if now ≥ deadline
              then ({ h with state := HandlerState.Deactivated },
                some HandlerReceived.CloseConnection)
              else (h, none)).1.state ≠ .Active
          rw [if_pos hd]
          simp
        · show (if now ≥ deadline
              then ({ h with state := HandlerState.Deactivated },
                some HandlerReceived.CloseConnection)
              else (h, none)).1.state ≠ .Active
          rw [if_neg hd]
          exact hna

/-- C6 witness: a handler already `ShuttingDown` with deadline 10 receives a
`send_request` instruction; the dial queue is untouched and the state
stays away from `Active`. -/
theorem handler_state_machine_witness :
    (Handler.mk (.ShuttingDown 10) [] [] [] 0 [] 0).state ≠ .Active
    ∧ (((Handler.mk (.ShuttingDown 10) [] [] [] 0 [] 0).step
          (.instructionRequest 4 (.goodbye .Fault))).1.dial_queue
        = (Handler.mk (.ShuttingDown 10) [] [] [] 0 [] 0).dial_queue) :=
  ⟨by decide,
    (handler_state_machine (Handler.mk (.ShuttingDown 10) [] [] [] 0 [] 0)
        (.instructionRequest 4 (.goodbye .Fault))).2.1 (by decide) 4 (.goodbye .Fault) rfl⟩

/-!
Claim C7 — inbound negotiation.
-/

/-- C7, counterexample: the claim says `Request(..)` is surfaced upward only
for non-GOODBYE requests.  On a fresh handler, negotiating an inbound
GOODBYE both begins the shutdown sequence and pushes the `Request` event
for the behaviour: the source pushes it unconditionally
(src/rpc/handler.rs:266-271 has no `else`), and src/network.rs:233-239
indeed expects and logs surfaced GOODBYE requests. -/
theorem inbound_goodbye_surfaced_counterexample :
    (Handler.new.on_fully_negotiated_inbound 0 (.goodbye .Fault)).out_events
        = [.Request 0 (.goodbye .Fault)]
    ∧ (Handler.new.on_fully_negotiated_inbound 0 (.goodbye .Fault)).state
        = .ShuttingDown SHUTDOWN_TIMEOUT_SECS := by
  decide

/-- C7, amended: on every successful inbound negotiation the handler mints a
fresh `SubstreamId` (fresh under the generator invariant that every
stored id is below the counter), stores an `Idle` substream with an
empty response queue, bumps the counter; a GOODBYE request immediately
begins the shutdown sequence; and the `Request(substream_id, request)`
event is surfaced upward for every request, GOODBYE included. -/
theorem on_fully_negotiated_inbound_spec (h : Handler) (now : Nat)
    (request : InboundRequestKind)
    (hfresh : ∀ sid info, lookupKey h.inbound_substreams sid = some info →
      sid < h.inbound_substream_id) :
    lookupKey h.inbound_substreams h.inbound_substream_id = none
    ∧ lookupKey (h.on_fully_negotiated_inbound now request).inbound_substreams
        h.inbound_substream_id
      = some { state := .Idle, responses_to_send := [] }
    ∧ (h.on_fully_negotiated_inbound now request).inbound_substream_id
      = h.inbound_substream_id + 1
    ∧ (h.on_fully_negotiated_inbound now request).out_events
      = h.out_events ++ [.Request h.inbound_substream_id request]
    ∧ (∀ reason, request = .goodbye reason → h.state = .Active →
        (h.on_fully_negotiated_inbound now request).state
          = .ShuttingDown (now + SHUTDOWN_TIMEOUT_SECS))
    ∧ ((∀ reason, request ≠ .goodbye reason) →
        (h.on_fully_negotiated_inbound now request).state = h.state) := by
  have hnone : lookupKey h.inbound_substreams h.inbound_substream_id = none := by
    cases hl : lookupKey h.inbound_substreams h.inbound_substream_id with
    | none => rfl
    | some info => exact absurd (hfresh _ _ hl) (lt_irrefl _)
  refine ⟨hnone, ?_, ?_, ?_, ?_, ?_⟩
  · cases request with
    | goodbye reason =>
      show lookupKey (Handler.shutdown _ now none).inbound_substreams _ = _
      unfold Handler.shutdown
      split
      · simp [lookupKey]
      · simp [lookupKey]
    | status message => simp [Handler.on_fully_negotiated_inbound, lookupKey]
    | blocksByRange req => simp [Handler.on_fully_negotiated_inbound, lookupKey]
  · cases request with
    | goodbye reason =>
      show (Handler.shutdown _ now none).inbound_substream_id = _
      unfold Handler.shutdown
      split
      · rfl
      · rfl
    | status message => rfl
    | blocksByRange req => rfl
  · cases request with
    | goodbye reason =>
      show ((Handler.shutdown _ now none).out_events ++ _) = _
      unfold Handler.shutdown
      split
      · rfl
      · rfl
    | status message => rfl
    | blocksByRange req => rfl
  · intro reason hreq ha
    subst hreq
    show (Handler.shutdown _ now none).state = _
    rw [Handler.shutdown_state]
    simp only []
    rw [if_pos ha]
  · intro hng
    cases request with
    | goodbye reason => exact absurd rfl (hng reason)
    | status message => rfl
    | blocksByRange req => rfl

/-- C7 witness: a fresh handler negotiates an inbound STATUS; the generator
invariant holds vacuously, the substream is stored Idle with an empty
queue, and the request is surfaced upward. -/
theorem on_fully_negotiated_inbound_spec_witness :
    (∀ sid info, lookupKey Handler.new.inbound_substreams sid = some info →
        sid < Handler.new.inbound_substream_id)
    ∧ (Handler.new.on_fully_negotiated_inbound 3
          (.status (StatusMessage.mk [1, 1, 1, 1] 0 5 0 90))).out_events
      = Handler.new.out_events
          ++ [.Request Handler.new.inbound_substream_id
                (.status (StatusMessage.mk [1, 1, 1, 1] 0 5 0 90))] :=
  ⟨fun _ _ hl => Option.noConfusion hl,
    (on_fully_negotiated_inbound_spec Handler.new 3
        (.status (StatusMessage.mk [1, 1, 1, 1] 0 5 0 90))
        (fun _ _ hl => Option.noConfusion hl)).2.2.2.1⟩

/-!
Claim C8 — goodbye on an irrelevant STATUS.
-/

/-- C8: when a received STATUS fails the relevance check,
`validate_status_message` invokes `PeerManager::goodbye(..,
IrrelevantNetwork)` — the peer's record gets `sync_status =
IrrelevantPeer` and `connection_status = Disconnecting` and a
`DisconnectPeer(peer, IrrelevantNetwork)` event is queued — and no
`SyncOperation::AddPeer` is ever sent to the sync layer for that peer. -/
theorem validate_status_irrelevant_goodbye (n : Network) (peer_id : Nat)
    (message : StatusMessage) (info : PeerInfo)
    (hirr : check_peer_relevance n.beacon_chain message = false)
    (hmem : n.peer_manager.peer_db.find? peer_id = some info) :
    (n.validate_status_message peer_id message).1.peer_manager.peer_db.find? peer_id
      = some { info with sync_status := .IrrelevantPeer, connection_status := .Disconnecting }
    ∧ (n.validate_status_message peer_id message).1.peer_manager.events
      = n.peer_manager.events ++ [.DisconnectPeer peer_id .IrrelevantNetwork]
    ∧ (n.validate_status_message peer_id message).1.sync_sent = n.sync_sent
    ∧ (n.validate_status_message peer_id message).2 = false := by
  unfold Network.validate_status_message
  rw [hirr, if_neg (by simp)]
  refine ⟨?_, ?_, rfl, rfl⟩
  · show (PeerManager.goodbye _ peer_id .IrrelevantNetwork).peer_db.find? peer_id = _
    unfold PeerManager.goodbye
    simp only [reduceIte]
    rw [PeerDB.find?_update_connection_status, PeerDB.find?_update_sync_status, hmem]
    rfl
  · show (PeerManager.goodbye _ peer_id .IrrelevantNetwork).events = _
    unfold PeerManager.goodbye
    rfl

/-- C8 witness: spec scenario 2 — remote fork digest `[2,2,2,2]` against
local `[1,1,1,1]` — on a network whose PeerDB knows peer 7. -/
theorem validate_status_irrelevant_goodbye_witness :
    check_peer_relevance
        (BeaconChain.mk (StatusMessage.mk [1, 1, 1, 1] 0 5 0 100) 100)
        (StatusMessage.mk [2, 2, 2, 2] 0 5 0 90) = false
    ∧ ((Network.mk (BeaconChain.mk (StatusMessage.mk [1, 1, 1, 1] 0 5 0 100) 100)
            (PeerManager.mk (PeerDB.mk [(7, PeerInfo.new 3)]) [] 50 [] []) []).validate_status_message
          7 (StatusMessage.mk [2, 2, 2, 2] 0 5 0 90)).1.sync_sent
      = (Network.mk (BeaconChain.mk (StatusMessage.mk [1, 1, 1, 1] 0 5 0 100) 100)
            (PeerManager.mk (PeerDB.mk [(7, PeerInfo.new 3)]) [] 50 [] []) []).sync_sent :=
  ⟨by decide,
    (validate_status_irrelevant_goodbye
        (Network.mk (BeaconChain.mk (StatusMessage.mk [1, 1, 1, 1] 0 5 0 100) 100)
          (PeerManager.mk (PeerDB.mk [(7, PeerInfo.new 3)]) [] 50 [] []) [])
        7 (StatusMessage.mk [2, 2, 2, 2] 0 5 0 90) (PeerInfo.new 3)
        (by decide) (by decide)).2.2.1⟩

/-!
Claim C9 — PeerDB lifecycle invariants.
-/

/-- Connection-status updates never change a record's sync status. -/
theorem PeerDB.sync_after_update_connection (db : PeerDB) (q p : Nat) (c : ConnectionStatus) :
    ((db.update_connection_status q c).find? p).map PeerInfo.sync_status
      = (db.find? p).map PeerInfo.sync_status := by
  by_cases hpq : q = p
  · subst hpq
    rw [PeerDB.find?_update_connection_status]
    cases db.find? q <;> rfl
  · rw [PeerDB.find?_update_connection_status_ne db q p c hpq]

/-- Updates never create or delete records: the domain of the store is
untouched by `update_sync_status`. -/
theorem PeerDB.find?_none_update_sync_status (db : PeerDB) (q p : Nat) (s : SyncStatus) :
    ((db.update_sync_status q s).find? p = none ↔ db.find? p = none) := by
  by_cases hpq : q = p
  · subst hpq
    rw [PeerDB.find?_update_sync_status]
    cases db.find? q <;> simp
  · rw [PeerDB.find?_update_sync_status_ne db q p s hpq]

/-- Updates never create or delete records: the domain of the store is
untouched by `update_connection_status`. -/
theorem PeerDB.find?_none_update_connection_status (db : PeerDB) (q p : Nat)
    (c : ConnectionStatus) :
    ((db.update_connection_status q c).find? p = none ↔ db.find? p = none) := by
  by_cases hpq : q = p
  · subst hpq
    rw [PeerDB.find?_update_connection_status]
    cases db.find? q <;> simp
  · rw [PeerDB.find?_update_connection_status_ne db q p c hpq]

/-- C9, counterexample: the claim says sync status changes only through a
validated STATUS exchange and never through a connection-lifecycle
event.  But `ConnectionEstablished` calls `PeerDB::add_peer`, which is a
`HashMap::insert` and so overwrites an existing record: a peer marked
`Synced` that reconnects is silently reset to `Unknown` by the
connection-lifecycle event alone. -/
theorem peerdb_sync_reset_counterexample :
    ((PeerDB.run [.connectionEstablished 0 5, .statusValidated 0 .Synced]).find? 0).map
        PeerInfo.sync_status = some .Synced
    ∧ (((PeerDB.run [.connectionEstablished 0 5, .statusValidated 0 .Synced]).step
          (.connectionEstablished 0 5)).find? 0).map PeerInfo.sync_status
        = some .Unknown := by
  decide

/-- C9, amended: across every PeerDB-writing event, (i) a record is never
deleted; (ii) a record appears only through `ConnectionEstablished`, and
then with `sync_status = Unknown`; (iii) an existing record's sync
status changes only through a STATUS exchange for that peer
(classification or irrelevant-goodbye) or through a repeated
`ConnectionEstablished`, which re-creates the record with `sync_status =
Unknown`. -/
theorem peerdb_step_spec (db : PeerDB) (e : PeerDBEvent) (p : Nat) :
    (db.find? p ≠ none → (db.step e).find? p ≠ none)
    ∧ (db.find? p = none → (db.step e).find? p ≠ none →
        ∃ address, e = .connectionEstablished p address
          ∧ ((db.step e).find? p).map PeerInfo.sync_status = some .Unknown)
    ∧ (((db.step e).find? p).map PeerInfo.sync_status
          ≠ (db.find? p).map PeerInfo.sync_status →
        e.isStatusExchangeFor p = true
          ∨ ∃ address, e = .connectionEstablished p address
              ∧ ((db.step e).find? p).map PeerInfo.sync_status = some .Unknown) := by
  cases e with
  | connectionEstablished q address =>
    by_cases hpq : q = p
    · subst hpq
      refine ⟨?_, ?_, ?_⟩
      · intro _
        show (db.add_peer q address).find? q ≠ none
        rw [PeerDB.find?_add_peer]
        simp
      · intro _ _
        refine ⟨address, rfl, ?_⟩
        show ((db.add_peer q address).find? q).map PeerInfo.sync_status = _
        rw [PeerDB.find?_add_peer]
        rfl
      · intro _
        right
        refine ⟨address, rfl, ?_⟩
        show ((db.add_peer q address).find? q).map PeerInfo.sync_status = _
        rw [PeerDB.find?_add_peer]
        rfl
    · have hne : (db.add_peer q address).find? p = db.find? p :=
        PeerDB.find?_add_peer_ne db q address p hpq
      exact ⟨fun hn => by rw [show (db.step (.connectionEstablished q address)).find? p
            = db.find? p from hne]; exact hn,
        fun hnone hsome => absurd (by rw [show (db.step (.connectionEstablished q address)).find? p
            = db.find? p from hne, hnone] at hsome; exact hsome rfl) (fun h => h),
        fun hch => absurd (by rw [show (db.step (.connectionEstablished q address)).find? p
            = db.find? p from hne]) hch⟩
  | connectionClosed q remaining now =>
    by_cases hrem : remaining > 0
    · have hstep0 : db.step (.connectionClosed q remaining now) = db := by
        simp [PeerDB.step, hrem]
      refine ⟨?_, ?_, ?_⟩
      · intro hn
        rw [hstep0]
        exact hn
      · intro hnone hsome
        rw [hstep0, hnone] at hsome
        exact absurd rfl hsome
      · intro hch
        rw [hstep0] at hch
        exact absurd rfl hch
    · have hstep : db.step (.connectionClosed q remaining now)
          = db.update_connection_status q (.Disconnected now) := by
        simp [PeerDB.step, hrem]
      refine ⟨?_, ?_, ?_⟩
      · intro hn
        rw [hstep]
        intro hcon
        exact hn ((PeerDB.find?_none_update_connection_status db q p _).mp hcon)
      · intro hnone hsome
        rw [hstep] at hsome
        exact absurd ((PeerDB.find?_none_update_connection_status db q p _).mpr hnone) hsome
      · intro hch
        rw [hstep] at hch
        exact absurd (PeerDB.sync_after_update_connection db q p _) hch
  | statusValidated q s =>
    by_cases hpq : q = p
    · subst hpq
      refine ⟨?_, ?_, fun _ => Or.inl (by simp [PeerDBEvent.isStatusExchangeFor])⟩
      · intro hn
        show (db.update_sync_status q s).find? q ≠ none
        intro hcon
        exact hn ((PeerDB.find?_none_update_sync_status db q q s).mp hcon)
      · intro hnone hsome
        exact absurd ((PeerDB.find?_none_update_sync_status db q q s).mpr hnone) hsome
    · have hne : (db.update_sync_status q s).find? p = db.find? p :=
        PeerDB.find?_update_sync_status_ne db q p s hpq
      refine ⟨?_, ?_, ?_⟩
      · intro hn
        show (db.update_sync_status q s).find? p ≠ none
        rw [hne]
        exact hn
      · intro hnone hsome
        rw [show (db.step (.statusValidated q s)).find? p = db.find? p from hne, hnone] at hsome
        exact absurd rfl hsome
      · intro hch
        rw [show (db.step (.statusValidated q s)).find? p = db.find? p from hne] at hch
        exact absurd rfl hch
  | statusIrrelevant q =>
    have hstep : db.step (.statusIrrelevant q)
        = (db.update_sync_status q .IrrelevantPeer).update_connection_status q .Disconnecting :=
      rfl
    by_cases hpq : q = p
    · subst hpq
      refine ⟨?_, ?_, fun _ => Or.inl (by simp [PeerDBEvent.isStatusExchangeFor])⟩
      · intro hn
        rw [hstep]
        intro hcon
        exact hn ((PeerDB.find?_none_update_sync_status db q q _).mp
          ((PeerDB.find?_none_update_connection_status _ q q _).mp hcon))
      · intro hnone hsome
        rw [hstep] at hsome
        exact absurd ((PeerDB.find?_none_update_connection_status _ q q _).mpr
          ((PeerDB.find?_none_update_sync_status db q q _).mpr hnone)) hsome
    · have hne : ((db.update_sync_status q .IrrelevantPeer).update_connection_status
          q .Disconnecting).find? p = db.find? p := by
        rw [PeerDB.find?_update_connection_status_ne _ q p _ hpq,
          PeerDB.find?_update_sync_status_ne db q p _ hpq]
      refine ⟨?_, ?_, ?_⟩
      · intro hn
        rw [hstep, hne]
        exact hn
      · intro hnone hsome
        rw [hstep, hne, hnone] at hsome
        exact absurd rfl hsome
      · intro hch
        rw [hstep, hne] at hch
        exact absurd rfl hch

/-- C9 witness: concrete instances of the amended facts — a fresh store
after `ConnectionEstablished` holds the peer with `Unknown`, and a
`statusValidated` event for another peer leaves peer 0's record in
place. -/
theorem peerdb_step_spec_witness :
    (PeerDB.new.find? 0 = none)
    ∧ ((PeerDB.new.step (.connectionEstablished 0 5)).find? 0 ≠ none →
        ∃ address, PeerDBEvent.connectionEstablished 0 5
            = .connectionEstablished 0 address
          ∧ (((PeerDB.new.step (.connectionEstablished 0 5)).find? 0).map
              PeerInfo.sync_status = some .Unknown)) :=
  ⟨by decide, (peerdb_step_spec PeerDB.new (.connectionEstablished 0 5) 0).2.1 (by decide)⟩

/-!
Claim C10 — updates for unknown peers are no-ops.
-/

/-- C10: for a peer id with no record, both `update_sync_status` and
`update_connection_status` return the PeerDB completely unchanged. -/
theorem peerdb_update_missing_noop (db : PeerDB) (peer_id : Nat) (s : SyncStatus)
    (c : ConnectionStatus) (hmiss : db.find? peer_id = none) :
    db.update_sync_status peer_id s = db ∧ db.update_connection_status peer_id c = db := by
  have hl : lookupKey db.peers peer_id = none := hmiss
  constructor
  · unfold PeerDB.update_sync_status
    rw [hl]
  · unfold PeerDB.update_connection_status
    rw [hl]

/-- C10 witness: a store containing only peer 1 is unchanged by updates
addressed to the absent peer 9. -/
theorem peerdb_update_missing_noop_witness :
    (PeerDB.mk [(1, PeerInfo.new 4)]).find? 9 = none
    ∧ (PeerDB.mk [(1, PeerInfo.new 4)]).update_sync_status 9 .Synced
        = PeerDB.mk [(1, PeerInfo.new 4)]
    ∧ (PeerDB.mk [(1, PeerInfo.new 4)]).update_connection_status 9 .Disconnecting
        = PeerDB.mk [(1, PeerInfo.new 4)] :=
  ⟨by decide,
    (peerdb_update_missing_noop (PeerDB.mk [(1, PeerInfo.new 4)]) 9 .Synced .Disconnecting
        (by decide)).1,
    (peerdb_update_missing_noop (PeerDB.mk [(1, PeerInfo.new 4)]) 9 .Synced .Disconnecting
        (by decide)).2⟩
